import Mathlib

/-!
Verification of the NationCraft nation-simulation engine (src/main.py).

The development shallowly embeds the engine parts of the program: the
six-statistic nation state and its clamped effect arithmetic
(`NationCraftGUI.apply_effects`), the game-over check
(`NationCraftGUI.check_game_over`), the decision step
(`NationCraftGUI.make_decision`), the event catalog seeding
(`DatabaseManager.populate_default_events`), the save/load session store
(`DatabaseManager.save_game` / `load_game`, SQLite `INSERT OR REPLACE`
keyed by the UNIQUE `save_name` column), the high-score recording
(`DatabaseManager.save_high_score` over the `high_scores` schema) and the
leaderboard query (`DatabaseManager.get_leaderboard`).

Python dicts keep insertion order, so the `self.stats` dict is embedded as
a structure together with the fixed key list `statNames` in the insertion
order of `NationCraftGUI.__init__`.  SQLite tables are embedded as lists
of rows in rowid (insertion) order.  Store-assigned wall-clock timestamps
(`created_at`, `updated_at`, `achieved_at`) are not modelled.  GUI-only
work (widget construction, dialogs, `show_decision_impact`) is omitted:
it reads the state but never writes it.
-/

namespace NationCraft

/-- Clamping used by `apply_effects`: `max(0, min(100, value))`. -/
def clamp (v : Int) : Int := max 0 (min 100 v)

/-- The six-statistic nation state, one field per key of the `self.stats`
dict created in `NationCraftGUI.__init__` (all start at 50). -/
structure Stats where
  economy : Int
  happiness : Int
  stability : Int
  relations : Int
  military_power : Int
  environment : Int
deriving DecidableEq

/-- The keys of the `self.stats` dict, in insertion order. -/
def statNames : List String :=
  [ "economy", "happiness", "stability", "relations", "military_power", "environment" ]

/-- Dict read `self.stats[stat]` for the six known keys. -/
def getStat (s : Stats) (k : String) : Int :=
  if k = "economy" then s.economy
  else if k = "happiness" then s.happiness
  else if k = "stability" then s.stability
  else if k = "relations" then s.relations
  else if k = "military_power" then s.military_power
  else if k = "environment" then s.environment
  else 0

/-- Dict write `self.stats[stat] = v` for the six known keys. -/
def setStat (s : Stats) (k : String) (v : Int) : Stats :=
  if k = "economy" then ⟨v, s.happiness, s.stability, s.relations, s.military_power, s.environment⟩
  else if k = "happiness" then ⟨s.economy, v, s.stability, s.relations, s.military_power, s.environment⟩
  else if k = "stability" then ⟨s.economy, s.happiness, v, s.relations, s.military_power, s.environment⟩
  else if k = "relations" then ⟨s.economy, s.happiness, s.stability, v, s.military_power, s.environment⟩
  else if k = "military_power" then ⟨s.economy, s.happiness, s.stability, s.relations, v, s.environment⟩
  else if k = "environment" then ⟨s.economy, s.happiness, s.stability, s.relations, s.military_power, v⟩
  else s

/-- One iteration of the `apply_effects` loop: `if stat in self.stats:
self.stats[stat] = max(0, min(100, self.stats[stat] + change))`; unknown
keys are ignored by the membership check. -/
def applyOne (s : Stats) (k : String) (change : Int) : Stats :=
  if k ∈ statNames then setStat s k (clamp (getStat s k + change)) else s

/-- Embeds `NationCraftGUI.apply_effects`: fold the loop body over the
items of the effects dict (a list of key, delta pairs in dict order). -/
def apply_effects (s : Stats) (effects : List (String × Int)) : Stats :=
  effects.foldl (fun acc p => applyOne acc p.1 p.2) s

/-- The items of `self.stats` in dict insertion order, as iterated by the
loop of `check_game_over`. -/
def statsItems (s : Stats) : List (String × Int) :=
  [ ("economy", s.economy), ("happiness", s.happiness), ("stability", s.stability),
    ("relations", s.relations), ("military_power", s.military_power),
    ("environment", s.environment) ]

/-- The `causes` message table of `check_game_over` (one fixed downfall
message per stat key; the emoji prefixes of the source strings are kept
out of the embedding). -/
def causes (stat : String) : String :=
  if stat = "economy" then
    "Economic Collapse! Your nation's economy has completely failed, leading to widespread poverty and chaos."
  else if stat = "happiness" then
    "Revolution! The people have risen against your government in a massive uprising."
  else if stat = "stability" then
    "Military Coup! Army generals have seized power and removed you from office."
  else if stat = "relations" then
    "International Isolation! Your country has become a pariah state with no allies."
  else if stat = "military_power" then
    "Invasion! Enemy forces have conquered your nation due to weak defenses."
  else if stat = "environment" then
    "Environmental Catastrophe! The nation has become uninhabitable due to ecological collapse."
  else ""

/-- Embeds `NationCraftGUI.check_game_over`: scan the stats in dict order
and return `(True, causes[stat])` for the first value `<= 0`, else
`(False, "")`. -/
def check_game_over (s : Stats) : Bool × String :=
  match (statsItems s).find? (fun p => decide (p.2 ≤ 0)) with
  | some p => (true, causes p.1)
  | none => (false, "")

/-- One decision option of an event: the JSON option objects stored in the
`options` column of `game_events`. -/
structure EventOption where
  text : String
  effects : List (String × Int)
  reason : String
deriving DecidableEq

/-- One catalog event: a row of the `game_events` table (the store-assigned
`id`, `difficulty_level` and `created_at` columns are not modelled). -/
structure Event where
  category : String
  title : String
  description : String
  options : List EventOption
deriving DecidableEq

/-- Python list indexing `l[i]`: non-negative indices from the front,
negative indices `-len(l) <= i <= -1` from the back, `IndexError`
(here `none`) otherwise. -/
def pyGet {α : Type} (l : List α) (i : Int) : Option α :=
  if 0 ≤ i then l.get? i.toNat
  else if 0 ≤ i + l.length then l.get? (i + l.length).toNat
  else none

/-- The mutable per-run engine state of `NationCraftGUI` that
`make_decision` touches. -/
structure GameState where
  stats : Stats
  current_year : Nat
  current_turn : Nat
deriving DecidableEq

/-- The one caller error of the decision step: the `IndexError` raised by
`self.current_event['options'][choice_index]` when the index is invalid. -/
inductive DecisionError where
  | invalidOptionIndex
deriving DecidableEq

/-- Embeds `NationCraftGUI.make_decision`: look up the chosen option (the
first statement of the method, which raises before any state is written),
apply its effects, then advance `current_turn` by 1 and `current_year` by
1 when the incremented turn is divisible by 4.  The result pairs the
raised error (if any) with the state after the call; on an error the
state is returned unchanged because the lookup precedes every mutation.
The subsequent game-over check of the source is `check_game_over` above;
display work is omitted. -/
def make_decision (ev : Event) (g : GameState) (choice_index : Int) :
    Option DecisionError × GameState :=
  match pyGet ev.options choice_index with
  | none => (some DecisionError.invalidOptionIndex, g)
  | some opt =>
      (none,
        ⟨apply_effects g.stats opt.effects,
         (if (g.current_turn + 1) % 4 = 0 then g.current_year + 1 else g.current_year),
         g.current_turn + 1⟩)

/-- The all-50 stats installed by the new-game reset. -/
def initialStats : Stats := ⟨50, 50, 50, 50, 50, 50⟩

/-- The fresh run state produced by the new-game reset: all stats 50,
`current_year = 2024`, `current_turn = 0`. -/
def freshStart : GameState := ⟨initialStats, 2024, 0⟩

/-- A sequence of decision calls, each given the event on display and the
chosen index; `none` as soon as one call raises. -/
def runDecisions : GameState → List (Event × Int) → Option GameState
  | g, [] => some g
  | g, (ev, c) :: rest =>
      match make_decision ev g c with
      | (none, g1) => runDecisions g1 rest
      | (some _, _) => none

/-- The per-session snapshot stored by `DatabaseManager.save_game`: the
`game_state` dict built in `save_game_dialog` (`country_name`,
`current_year`, `current_turn` and the six stats). -/
structure GameSave where
  country_name : String
  current_year : Nat
  current_turn : Nat
  stats : Stats
deriving DecidableEq

/-- The `game_sessions` table as a list of rows keyed by the UNIQUE
`save_name` column, in rowid order. -/
abbrev SessionTable : Type := List (String × GameSave)

/-- Embeds `DatabaseManager.save_game`: SQLite `INSERT OR REPLACE` on the
UNIQUE `save_name` key deletes any row with that name and appends the new
row. -/
def save_game (db : SessionTable) (save_name : String) (g : GameSave) : SessionTable :=
  List.filter (fun p => decide (p.1 ≠ save_name)) db ++ [(save_name, g)]

/-- Embeds `DatabaseManager.load_game`: `SELECT * FROM game_sessions WHERE
save_name = ?` and `fetchone`, `None` on a miss. -/
def load_game (db : SessionTable) (save_name : String) : Option GameSave :=
  (List.find? (fun p => decide (p.1 = save_name)) db).map Prod.snd

/-- The `save_name` column holds pairwise distinct values (the UNIQUE
constraint of the schema). -/
def keysNodup (db : SessionTable) : Prop := (List.map Prod.fst db).Nodup

/-- The `score_data` dict built in `NationCraftGUI.game_over_screen` and
handed to `save_high_score`. -/
structure ScoreData where
  player_name : String
  country_name : String
  years_survived : Int
  turns_survived : Int
  final_stats : Stats
  cause_of_downfall : String
deriving DecidableEq

/-- A row of the `high_scores` table as populated by `save_high_score`:
the schema declares exactly four final-stat columns (`final_economy`,
`final_happiness`, `final_stability`, `final_relations`); the
store-assigned `id` and `achieved_at` columns are not modelled. -/
structure HighScoreRow where
  player_name : String
  country_name : String
  years_survived : Int
  turns_survived : Int
  final_economy : Int
  final_happiness : Int
  final_stability : Int
  final_relations : Int
  cause_of_downfall : String
deriving DecidableEq

/-- Embeds `DatabaseManager.save_high_score`: the INSERT binds the nine
listed columns from `score_data`, taking the four persisted final stats
from `score_data["final_stats"]`. -/
def save_high_score (d : ScoreData) : HighScoreRow :=
  ⟨d.player_name, d.country_name, d.years_survived, d.turns_survived,
   d.final_stats.economy, d.final_stats.happiness, d.final_stats.stability,
   d.final_stats.relations, d.cause_of_downfall⟩

/-- The column list projected by the leaderboard SELECT (`player_name,
country_name, years_survived, turns_survived, cause_of_downfall`; the
`achieved_at` timestamp of the SELECT is not modelled). -/
structure LeaderRow where
  player_name : String
  country_name : String
  years_survived : Int
  turns_survived : Int
  cause_of_downfall : String
deriving DecidableEq

/-- Projection of a stored row onto the leaderboard SELECT columns. -/
def projectRow (r : HighScoreRow) : LeaderRow :=
  ⟨r.player_name, r.country_name, r.years_survived, r.turns_survived, r.cause_of_downfall⟩

/-- The sort key of `ORDER BY years_survived DESC, turns_survived DESC` as
a relation on stored rows: `a` may stand no later than `b`. -/
def scoreOrder (a b : HighScoreRow) : Prop :=
  b.years_survived < a.years_survived ∨
    (a.years_survived = b.years_survived ∧ b.turns_survived ≤ a.turns_survived)

instance (a b : HighScoreRow) : Decidable (scoreOrder a b) := by
  unfold scoreOrder; infer_instance

/-- The same sort key on the projected SELECT columns. -/
def leaderOrder (a b : LeaderRow) : Prop :=
  b.years_survived < a.years_survived ∨
    (a.years_survived = b.years_survived ∧ b.turns_survived ≤ a.turns_survived)

instance (a b : LeaderRow) : Decidable (leaderOrder a b) := by
  unfold leaderOrder; infer_instance

/-- Embeds `DatabaseManager.get_leaderboard` as a relation: SQLite's
`ORDER BY years_survived DESC, turns_survived DESC LIMIT ?` returns the
first `limit` rows of some permutation of the table that is sorted on the
two keys, projected onto the SELECT columns.  The relative order of rows
that tie on both keys is left open by the query (the documented SQLite
contract for ORDER BY with equal keys), so every such permutation is an
admissible result. -/
def IsLeaderboardResult (db : List HighScoreRow) (limit : Nat) (res : List LeaderRow) : Prop :=
  ∃ p : List HighScoreRow,
    List.Perm db p ∧ List.Sorted scoreOrder p ∧ res = List.map projectRow (List.take limit p)

/-- Stable descending insertion used by `specTopN`: a new row goes in
front of the first stored row it strictly beats on the two sort keys, and
therefore after every earlier row it ties with. -/
def insertScore (r : HighScoreRow) : List HighScoreRow → List HighScoreRow
  | [] => [r]
  | x :: xs =>
      if x.years_survived < r.years_survived ∨
          (r.years_survived = x.years_survived ∧ x.turns_survived < r.turns_survived) then
        r :: x :: xs
      else x :: insertScore r xs

/-- Modelled from the spec's words for comparison with the query: `topN`
sorted by `years_survived` descending, ties by `turns_survived`
descending, remaining ties by insertion order with the earlier-inserted
record ranked higher. -/
def specTopN (db : List HighScoreRow) (limit : Nat) : List LeaderRow :=
  List.map projectRow (List.take limit (db.foldl (fun acc r => insertScore r acc) []))

/-- The seven-event seed list `default_events` of
`DatabaseManager.populate_default_events`, transcribed field by field. -/
def default_events : List Event :=
  [ ⟨ "economy", "Auto Industry Strike",
      "A major strike has broken out in the automobile industry. Workers demand higher wages and better working conditions. Production has halted at major plants.",
      [ ⟨ "Approve higher wages immediately",
          [ ("economy", -10), ("happiness", 20), ("stability", 5) ],
          "Higher wages strain the budget but boost worker morale and loyalty. Quick resolution prevents prolonged disruption." ⟩,
        ⟨ "Reject demands and deploy police",
          [ ("economy", 5), ("happiness", -15), ("stability", -10) ],
          "Forceful suppression saves money short-term but creates deep resentment and potential for future unrest." ⟩,
        ⟨ "Negotiate for partial wage increase",
          [ ("economy", -5), ("happiness", 10), ("stability", 5) ],
          "Compromise shows leadership while balancing economic concerns. Both sides make concessions." ⟩,
        ⟨ "Offer alternative benefits package",
          [ ("economy", -3), ("happiness", 8), ("relations", 3) ],
          "Creative solutions like healthcare or training programs cost less than wages but still address worker concerns." ⟩ ] ⟩,
    ⟨ "diplomacy", "Border Dispute Escalation",
      "A neighboring country has moved troops near your eastern border, claiming historical territorial rights. International observers are watching closely.",
      [ ⟨ "Deploy military to the border",
          [ ("military_power", 10), ("relations", -15), ("economy", -8) ],
          "Military posturing shows strength but escalates tensions and drains resources for deployment and maintenance." ⟩,
        ⟨ "Request UN mediation",
          [ ("relations", 8), ("stability", 5), ("economy", -3) ],
          "Diplomatic approach enhances international standing and provides neutral arbitration, though it requires funding." ⟩,
        ⟨ "Offer territorial compromise",
          [ ("relations", 15), ("happiness", -10), ("stability", -5) ],
          "Peaceful resolution improves diplomatic ties but appears weak to citizens who view it as giving up sovereign land." ⟩,
        ⟨ "Impose targeted economic sanctions",
          [ ("economy", -5), ("relations", -8), ("stability", 3) ],
          "Economic pressure shows resolve without military action, but reduces trade and may hurt your own economy." ⟩ ] ⟩,
    ⟨ "environment", "Industrial Pollution Crisis",
      "Several major factories have been releasing toxic chemicals into the air and water. Environmental groups are protesting, and public health concerns are rising.",
      [ ⟨ "Immediately shut down polluting factories",
          [ ("environment", 20), ("economy", -15), ("happiness", -8) ],
          "Decisive environmental action prevents health disasters but causes massive job losses and economic disruption." ⟩,
        ⟨ "Implement gradual emission standards",
          [ ("environment", 8), ("economy", -5), ("happiness", 5) ],
          "Balanced approach gives companies time to adapt while showing environmental commitment. Moderate costs for all." ⟩,
        ⟨ "Ignore environmental concerns",
          [ ("economy", 5), ("environment", -10), ("happiness", -12), ("stability", -8) ],
          "Prioritizing industry over environment leads to health crises, public outrage, and long-term ecological damage." ⟩,
        ⟨ "Invest heavily in green technology subsidies",
          [ ("environment", 15), ("economy", -10), ("relations", 8) ],
          "Forward-thinking investment creates jobs in new sectors and improves international image, but requires significant upfront costs." ⟩ ] ⟩,
    ⟨ "politics", "Government Corruption Scandal",
      "Investigative journalists have exposed a major corruption ring involving high-ranking government officials and defense contractors. The media is demanding accountability.",
      [ ⟨ "Launch comprehensive investigation",
          [ ("stability", 15), ("happiness", 10), ("economy", -5) ],
          "Transparent accountability restores public trust and strengthens institutions, though investigations are costly and time-consuming." ⟩,
        ⟨ "Attempt to suppress the story",
          [ ("stability", -15), ("happiness", -20), ("economy", 5) ],
          "Cover-up attempts backfire when exposed, creating deeper scandals and destroying credibility with the public." ⟩,
        ⟨ "Quietly remove officials without fanfare",
          [ ("stability", 5), ("happiness", -5), ("economy", 3) ],
          "Minimal response addresses the immediate problem but doesn't satisfy demands for justice and transparency." ⟩,
        ⟨ "Blame opposition and deflect",
          [ ("stability", -8), ("happiness", -10), ("relations", -5) ],
          "Political deflection appears defensive and dishonest, damaging relationships with both domestic opposition and international partners." ⟩ ] ⟩,
    ⟨ "military", "Defense Modernization Pressure",
      "Military leaders warn that neighboring countries are advancing their weapons systems. They request significant budget increases for modernization programs.",
      [ ⟨ "Approve major defense spending increase",
          [ ("military_power", 15), ("economy", -12), ("stability", 8) ],
          "Strong military deters threats and reassures citizens, but diverts funds from civilian programs and increases deficit spending." ⟩,
        ⟨ "Maintain current defense budget",
          [ ("military_power", -5), ("stability", 3), ("happiness", 5) ],
          "Fiscal responsibility pleases taxpayers but may leave military outdated, potentially creating security vulnerabilities." ⟩,
        ⟨ "Reduce defense spending for social programs",
          [ ("economy", 10), ("military_power", -15), ("stability", -8) ],
          "Reallocation helps civilian needs but weakens defense capabilities and may alarm military leadership and allies." ⟩,
        ⟨ "Seek international defense partnerships",
          [ ("military_power", 8), ("relations", -5), ("economy", 3) ],
          "Shared defense costs reduce expenses but create dependency on allies and may compromise strategic autonomy." ⟩ ] ⟩,
    ⟨ "economy", "Economic Recession Warning",
      "Economic indicators show the country is entering a recession. Unemployment is rising, businesses are closing, and consumer confidence is at a five-year low.",
      [ ⟨ "Launch massive stimulus package",
          [ ("economy", 15), ("happiness", 10), ("stability", 5) ],
          "Government spending jumpstarts economic activity and provides immediate relief, but increases national debt significantly." ⟩,
        ⟨ "Implement austerity measures",
          [ ("economy", -5), ("happiness", -10), ("stability", -5) ],
          "Fiscal restraint may worsen short-term conditions but aims for long-term stability by reducing government debt burden." ⟩,
        ⟨ "Increase taxes on wealthy individuals",
          [ ("economy", 8), ("happiness", -8), ("stability", -3) ],
          "Revenue from high earners funds programs but may discourage investment and create capital flight among the wealthy." ⟩,
        ⟨ "Attract foreign investment with incentives",
          [ ("economy", 12), ("relations", -3), ("stability", 3) ],
          "Foreign capital creates jobs and growth but may create dependency and concerns about national economic sovereignty." ⟩ ] ⟩,
    ⟨ "social", "Healthcare System Crisis",
      "Hospitals are overwhelmed, medical staff are burned out, and critical supplies are running short. Citizens are demanding immediate healthcare system reforms.",
      [ ⟨ "Massively increase healthcare funding",
          [ ("happiness", 15), ("economy", -10), ("stability", 8) ],
          "Investment in healthcare saves lives and improves quality of life but requires significant budget reallocation or new taxes." ⟩,
        ⟨ "Privatize significant portions of healthcare",
          [ ("economy", 8), ("happiness", -12), ("stability", -5) ],
          "Market solutions may improve efficiency and reduce government costs but limit access for lower-income citizens." ⟩,
        ⟨ "Implement gradual healthcare reforms",
          [ ("happiness", 8), ("economy", -5), ("stability", 3) ],
          "Step-by-step improvements balance budget concerns with healthcare needs but may not address urgent crisis fast enough." ⟩,
        ⟨ "Import healthcare workers and expand medical training",
          [ ("happiness", 10), ("economy", -8), ("relations", 5) ],
          "Expanding healthcare capacity through immigration and education provides long-term solutions but requires time and investment." ⟩ ] ⟩ ]

/-- Embeds `DatabaseManager.populate_default_events`: `SELECT COUNT(*)
FROM game_events` guards the seeding — with any events already stored the
method returns without touching the table, otherwise it inserts the seven
`default_events` rows. -/
def populate_default_events (db : List Event) : List Event :=
  if 0 < db.length then db else db ++ default_events

/-- The range invariant of the data model: every one of the six stat
values lies in the closed integer interval from 0 to 100. -/
def InRange (s : Stats) : Prop :=
  (0 ≤ s.economy ∧ s.economy ≤ 100) ∧ (0 ≤ s.happiness ∧ s.happiness ≤ 100) ∧
  (0 ≤ s.stability ∧ s.stability ≤ 100) ∧ (0 ≤ s.relations ∧ s.relations ≤ 100) ∧
  (0 ≤ s.military_power ∧ s.military_power ≤ 100) ∧
  (0 ≤ s.environment ∧ s.environment ≤ 100)

instance (s : Stats) : Decidable (InRange s) := by
  unfold InRange; infer_instance

instance (db : SessionTable) : Decidable (keysNodup db) := by
  unfold keysNodup; exact List.nodupDecidable _

/-- The stat vectors an engine run can reach when it starts from `s0`:
the new-game reset installs `initialStats`, each `make_decision` call
rewrites the stats (whether it raises or not, `Prod.snd` is the state
after the call), and `load_selected_game` replaces the stats with those
of a stored session — here a session that was saved from a reachable
vector, as every stored row of a run is. -/
inductive Reach (s0 : Stats) : Stats → Prop where
  | base : Reach s0 s0
  | newGame : Reach s0 initialStats
  | step (ev : Event) (g : GameState) (c : Int) :
      Reach s0 g.stats → Reach s0 (make_decision ev g c).2.stats
  | restore (db : SessionTable) (nm cn : String) (y t : Nat) (s : Stats) (g : GameSave) :
      Reach s0 s → load_game (save_game db nm ⟨cn, y, t, s⟩) nm = some g →
      Reach s0 g.stats

/-- A concrete four-option test event used to instantiate the decision
theorems (the catalog events all carry four options as well). -/
def testEvent : Event :=
  ⟨ "economy", "Test Crisis", "A concrete crisis used for instantiation.",
    [ ⟨ "Boost the economy", [ ("economy", 2) ], "Small boost." ⟩,
      ⟨ "Do nothing", [], "No change." ⟩,
      ⟨ "Cut happiness hard", [ ("happiness", -60) ], "Large cut." ⟩,
      ⟨ "Crash the economy", [ ("economy", -60) ], "Large cut." ⟩ ] ⟩

/-- Eight decisions, each taking option 0 of the test event. -/
def c3List : List (Event × Int) := List.replicate 8 (testEvent, 0)

/-- The state the eight decisions of `c3List` produce from `freshStart`. -/
def c3Final : GameState := ⟨⟨66, 50, 50, 50, 50, 50⟩, 2026, 8⟩

/-- Two session snapshots for the upsert instantiation. -/
def sessionA : GameSave := ⟨ "Utopia", 2025, 5, initialStats⟩

/-- Second snapshot saved under the same name as `sessionA`. -/
def sessionB : GameSave := ⟨ "Utopia", 2026, 9, ⟨60, 40, 50, 50, 50, 50⟩⟩

/-- Two score outcomes that differ only in the final `military_power` and
`environment` values. -/
def scoreSampleA : ScoreData := ⟨ "Pat", "Utopia", 1, 5, ⟨10, 20, 30, 40, 50, 60⟩, "Economic Collapse!" ⟩

/-- Same outcome as `scoreSampleA` except for the two stats the
`high_scores` schema has no column for. -/
def scoreSampleB : ScoreData := ⟨ "Pat", "Utopia", 1, 5, ⟨10, 20, 30, 40, 0, 0⟩, "Economic Collapse!" ⟩

/-- A stored score row; ties with `rowB` on both sort keys. -/
def rowA : HighScoreRow := ⟨ "Ada", "Utopia", 1, 1, 10, 10, 10, 10, "Revolution!" ⟩

/-- A second stored score row with the same `years_survived` and
`turns_survived` as `rowA`. -/
def rowB : HighScoreRow := ⟨ "Bo", "Arcadia", 1, 1, 10, 10, 10, 10, "Invasion!" ⟩

/-- Five stored score rows, listed in insertion order, which here already
descends on the two sort keys. -/
def rowsFive : List HighScoreRow :=
  [ ⟨ "Cy", "Cyland", 3, 12, 10, 10, 10, 10, "Revolution!" ⟩,
    ⟨ "Dee", "Deeland", 2, 8, 10, 10, 10, 10, "Invasion!" ⟩,
    ⟨ "Eli", "Eliland", 2, 2, 10, 10, 10, 10, "Revolution!" ⟩,
    ⟨ "Ada", "Adaland", 1, 5, 10, 10, 10, 10, "Invasion!" ⟩,
    ⟨ "Bo", "Boland", 0, 0, 10, 10, 10, 10, "Revolution!" ⟩ ]

/-- The three leaderboard rows drawn from `rowsFive` with limit 3. -/
def topThree : List LeaderRow := List.map projectRow (List.take 3 rowsFive)

/-- A vector with every stat at 1 (no stat at 0). -/
def allOnes : Stats := ⟨1, 1, 1, 1, 1, 1⟩

/-- A vector with `economy` and `happiness` simultaneously at 0. -/
def tieZero : Stats := ⟨0, 0, 50, 50, 50, 50⟩

/-- Clamping always lands in the closed interval from 0 to 100. -/
theorem clamp_mem (v : Int) : 0 ≤ clamp v ∧ clamp v ≤ 100 := by
  unfold clamp; omega

/-- One loop iteration of `apply_effects` keeps every stat in range. -/
theorem applyOne_inrange (s : Stats) (k : String) (c : Int) (h : InRange s) :
    InRange (applyOne s k c) := by
  have hc := clamp_mem (getStat s k + c)
  unfold InRange at h ⊢
  unfold applyOne setStat
  split
  · split
    · exact ⟨hc, h.2⟩
    · split
      · exact ⟨h.1, hc, h.2.2⟩
      · split
        · exact ⟨h.1, h.2.1, hc, h.2.2.2⟩
        · split
          · exact ⟨h.1, h.2.1, h.2.2.1, hc, h.2.2.2.2⟩
          · split
            · exact ⟨h.1, h.2.1, h.2.2.1, h.2.2.2.1, hc, h.2.2.2.2.2⟩
            · split
              · exact ⟨h.1, h.2.1, h.2.2.1, h.2.2.2.1, h.2.2.2.2.1, hc⟩
              · exact h
  · exact h

/-- The whole effects fold keeps every stat in range. -/
theorem apply_effects_inrange (l : List (String × Int)) (s : Stats) (h : InRange s) :
    InRange (apply_effects s l) := by
  induction l generalizing s with
  | nil => exact h
  | cons p rest ih => exact ih (applyOne s p.1 p.2) (applyOne_inrange s p.1 p.2 h)

/-- Python indexing misses exactly outside the interval from `-len` to
`len - 1`. -/
theorem pyGet_eq_none_iff {α : Type} (l : List α) (i : Int) :
    pyGet l i = none ↔ ¬(-(l.length : Int) ≤ i ∧ i < l.length) := by
  unfold pyGet
  split
  · rw [List.get?_eq_none]
    omega
  · split
    · rw [List.get?_eq_none]
      omega
    · simp only [true_iff]
      omega

/-- A negative in-range Python index reads the same element as the
corresponding from-the-front index. -/
theorem pyGet_neg {α : Type} (l : List α) (i : Int)
    (h1 : -(l.length : Int) ≤ i) (h2 : i ≤ -1) :
    pyGet l i = pyGet l (i + l.length) := by
  unfold pyGet
  rw [if_neg (by omega), if_pos (by omega), if_pos (by omega)]

/-- Loading right after saving under the same name returns the snapshot
just saved. -/
theorem load_save (db : SessionTable) (nm : String) (g : GameSave) :
    load_game (save_game db nm g) nm = some g := by
  unfold load_game save_game
  rw [List.find?_append]
  have hnone : (List.filter (fun p => decide (p.1 ≠ nm)) db).find?
      (fun p => decide (p.1 = nm)) = none := by
    rw [List.find?_eq_none]
    intro x hx
    have hpx := List.of_mem_filter hx
    simp at hpx ⊢
    exact hpx
  rw [hnone]
  simp [List.find?]

/-- Saving keeps the `save_name` keys pairwise distinct. -/
theorem save_keysNodup (db : SessionTable) (nm : String) (g : GameSave)
    (h : keysNodup db) : keysNodup (save_game db nm g) := by
  unfold keysNodup save_game at *
  rw [List.map_append]
  apply List.Nodup.append
  · exact ((List.filter_sublist db).map Prod.fst).nodup h
  · simp
  · intro a ha hb
    simp at hb
    subst hb
    obtain ⟨p, hp, rfl⟩ := List.mem_map.mp ha
    have hpf := List.of_mem_filter hp
    simp at hpf

/-- Predicates that agree on the members of a list find the same first
hit. -/
theorem find?_congr {α : Type} (l : List α) (p q : α → Bool)
    (h : ∀ x ∈ l, p x = q x) : l.find? p = l.find? q := by
  induction l with
  | nil => rfl
  | cons a t ih =>
      have ha := h a (List.mem_cons_self a t)
      rw [List.find?_cons, List.find?_cons, ha]
      cases hq : q a with
      | true => rfl
      | false => exact ih (fun x hx => h x (List.mem_cons_of_mem a hx))

/-- Every item of an in-range vector is non-negative. -/
theorem inrange_items (s : Stats) (h : InRange s) :
    ∀ p ∈ statsItems s, 0 ≤ p.2 := by
  intro p hp
  unfold statsItems at hp
  simp at hp
  rcases hp with rfl | rfl | rfl | rfl | rfl | rfl
  · exact h.1.1
  · exact h.2.1.1
  · exact h.2.2.1.1
  · exact h.2.2.2.1.1
  · exact h.2.2.2.2.1.1
  · exact h.2.2.2.2.2.1

/-- The boolean of `check_game_over` is the success of the scan. -/
theorem check_game_over_fst (s : Stats) :
    (check_game_over s).1 = ((statsItems s).find? (fun p => decide (p.2 ≤ 0))).isSome := by
  unfold check_game_over
  cases h : (statsItems s).find? (fun p => decide (p.2 ≤ 0)) <;> simp

/-- Claim C1, counterexample: two completed runs whose final stat vectors
differ only in `military_power` and `environment` persist the very same
`high_scores` row, so the recorded outcome does not store a snapshot of
all six final stat values. -/
theorem c1_counterexample :
    save_high_score scoreSampleA = save_high_score scoreSampleB ∧
    scoreSampleA.final_stats.military_power ≠ scoreSampleB.final_stats.military_power ∧
    scoreSampleA.final_stats.environment ≠ scoreSampleB.final_stats.environment := by
  decide

/-- Claim C1, amended: the `ScoreRecord` persisted by `save_high_score`
stores the terminated run's `player_name`, `country_name`,
`years_survived`, `turns_survived` and `cause_of_downfall`, and of the
six final stats exactly the four the schema has columns for: `economy`,
`happiness`, `stability` and `relations`. -/
theorem c1_amended (d : ScoreData) :
    (save_high_score d).player_name = d.player_name ∧
    (save_high_score d).country_name = d.country_name ∧
    (save_high_score d).years_survived = d.years_survived ∧
    (save_high_score d).turns_survived = d.turns_survived ∧
    (save_high_score d).final_economy = d.final_stats.economy ∧
    (save_high_score d).final_happiness = d.final_stats.happiness ∧
    (save_high_score d).final_stability = d.final_stats.stability ∧
    (save_high_score d).final_relations = d.final_stats.relations ∧
    (save_high_score d).cause_of_downfall = d.cause_of_downfall :=
  ⟨rfl, rfl, rfl, rfl, rfl, rfl, rfl, rfl, rfl⟩

/-- Claim C7: seeding the event catalog is idempotent — it never touches
a non-empty catalog, seeding the empty catalog twice leaves exactly the
seven default events, and a second application never changes the store
again. -/
theorem c7_seed_idempotent :
    (∀ db : List Event, 0 < db.length → populate_default_events db = db) ∧
    (populate_default_events (populate_default_events [])).length = 7 ∧
    (∀ db : List Event,
      populate_default_events (populate_default_events db) = populate_default_events db) := by
  refine ⟨?_, ?_, ?_⟩
  · intro db h
    unfold populate_default_events
    rw [if_pos h]
  · rfl
  · intro db
    unfold populate_default_events
    by_cases h : 0 < db.length
    · rw [if_pos h, if_pos h]
    · rw [if_neg h]
      have h7 : 0 < (db ++ default_events).length := by
        rw [List.length_append]
        have hd : default_events.length = 7 := rfl
        omega
      rw [if_pos h7]

/-- Claim C7, witness: the already-seeded catalog is left untouched. -/
theorem c7_witness :
    0 < default_events.length ∧
    populate_default_events default_events = default_events := by
  have h : 0 < default_events.length := by decide
  exact ⟨h, c7_seed_idempotent.1 default_events h⟩

/-- Claim C8: saving is an upsert keyed by `save_name` — saving twice
under one name and loading that name returns the second snapshot, and a
save keeps the `save_name` keys pairwise distinct, so at most one stored
snapshot exists per name. -/
theorem c8_save_upsert :
    (∀ (db : SessionTable) (nm : String) (a b : GameSave),
      load_game (save_game (save_game db nm a) nm b) nm = some b) ∧
    (∀ (db : SessionTable) (nm : String) (g : GameSave),
      keysNodup db → keysNodup (save_game db nm g)) :=
  ⟨fun db nm a b => load_save (save_game db nm a) nm b, save_keysNodup⟩

/-- Claim C8, witness: the alpha overwrite law on the empty store. -/
theorem c8_witness :
    load_game (save_game (save_game [] "alpha" sessionA) "alpha" sessionB) "alpha" = some sessionB ∧
    keysNodup (save_game [] "alpha" sessionA) :=
  ⟨c8_save_upsert.1 [] "alpha" sessionA sessionB,
   c8_save_upsert.2 [] "alpha" sessionA (by decide)⟩

/-- Claim C9: on an in-range vector the game-over test fires exactly when
one of the six values is 0; in particular all values in 1 to 100 mean no
termination, and reaching 100 is never terminal. -/
theorem c9_terminal_iff_zero (s : Stats) (h : InRange s) :
    (check_game_over s).1 = true ↔
      (s.economy = 0 ∨ s.happiness = 0 ∨ s.stability = 0 ∨ s.relations = 0 ∨
        s.military_power = 0 ∨ s.environment = 0) := by
  obtain ⟨⟨e1, e2⟩, ⟨p1, p2⟩, ⟨t1, t2⟩, ⟨r1, r2⟩, ⟨m1, m2⟩, ⟨n1, n2⟩⟩ := h
  rw [check_game_over_fst]
  constructor
  · intro hs
    rw [List.find?_isSome] at hs
    obtain ⟨x, hx, hpx⟩ := hs
    simp only [statsItems, List.mem_cons, List.not_mem_nil, or_false] at hx
    simp only [decide_eq_true_eq] at hpx
    rcases hx with rfl | rfl | rfl | rfl | rfl | rfl <;> dsimp only at hpx <;> omega
  · intro hd
    rw [List.find?_isSome]
    rcases hd with h0 | h0 | h0 | h0 | h0 | h0
    · exact ⟨("economy", s.economy), by simp [statsItems], by simp [h0]⟩
    · exact ⟨("happiness", s.happiness), by simp [statsItems], by simp [h0]⟩
    · exact ⟨("stability", s.stability), by simp [statsItems], by simp [h0]⟩
    · exact ⟨("relations", s.relations), by simp [statsItems], by simp [h0]⟩
    · exact ⟨("military_power", s.military_power), by simp [statsItems], by simp [h0]⟩
    · exact ⟨("environment", s.environment), by simp [statsItems], by simp [h0]⟩

/-- Claim C9, witness: the all-ones vector is in range and not terminal. -/
theorem c9_witness :
    InRange allOnes ∧
    ((check_game_over allOnes).1 = true ↔
      (allOnes.economy = 0 ∨ allOnes.happiness = 0 ∨ allOnes.stability = 0 ∨
        allOnes.relations = 0 ∨ allOnes.military_power = 0 ∨ allOnes.environment = 0)) :=
  ⟨by decide, c9_terminal_iff_zero allOnes (by decide)⟩

/-- Claim C4: on an in-range terminal vector the reported cause is that
of the first stat at value 0 in the canonical dict order economy,
happiness, stability, relations, military_power, environment — the
game-over scan is exactly the first-zero scan. -/
theorem c4_first_zero_cause (s : Stats) (h : InRange s) :
    check_game_over s =
      (match (statsItems s).find? (fun p => decide (p.2 = 0)) with
       | some p => (true, causes p.1)
       | none => (false, "")) := by
  unfold check_game_over
  rw [find?_congr (statsItems s) (fun p => decide (p.2 ≤ 0)) (fun p => decide (p.2 = 0))
      (fun x hx => by
        rw [decide_eq_decide]
        have h0 := inrange_items s h x hx
        omega)]

/-- Claim C4, witness: with `economy` and `happiness` both at 0 the
reported cause is that of `economy`, the first in canonical order. -/
theorem c4_witness :
    InRange tieZero ∧ check_game_over tieZero = (true, causes "economy") := by
  refine ⟨by decide, ?_⟩
  rw [c4_first_zero_cause tieZero (by decide)]
  rfl

/-- Claim C2: from any in-range starting vector, every reachable stat
vector — via the new-game reset, any sequence of decision calls with any
effects, and restoring a session saved from a reachable vector — is in
range: no operation leaves a stat outside 0 to 100. -/
theorem c2_reachable_in_range (s0 s : Stats) (h0 : InRange s0) (hr : Reach s0 s) :
    InRange s := by
  induction hr with
  | base => exact h0
  | newGame => decide
  | step ev g c hg ih =>
      unfold make_decision
      cases hp : pyGet ev.options c with
      | none => exact ih
      | some opt => exact apply_effects_inrange opt.effects g.stats ih
  | restore db nm cn y t s1 g hs hload ih =>
      rw [load_save db nm ⟨cn, y, t, s1⟩] at hload
      injection hload with hg
      subst hg
      exact ih

/-- Claim C2, witness: the fresh-start vector is reachable from itself
and in range. -/
theorem c2_witness : InRange initialStats :=
  c2_reachable_in_range initialStats initialStats (by decide) Reach.base

/-- A run of successful decisions keeps the year locked to
`2024 + turn / 4` and advances the turn by the number of decisions. -/
theorem runDecisions_inv (l : List (Event × Int)) :
    ∀ g0 g : GameState, g0.current_year = 2024 + g0.current_turn / 4 →
      runDecisions g0 l = some g →
      g.current_turn = g0.current_turn + l.length ∧
      g.current_year = 2024 + g.current_turn / 4 := by
  induction l with
  | nil =>
      intro g0 g hinv hrun
      cases hrun
      exact ⟨by simp, hinv⟩
  | cons hd rest ih =>
      intro g0 g hinv hrun
      obtain ⟨ev, c⟩ := hd
      unfold runDecisions make_decision at hrun
      cases hp : pyGet ev.options c with
      | none =>
          rw [hp] at hrun
          exact absurd hrun (by simp)
      | some opt =>
          rw [hp] at hrun
          have hinv1 :
              (if (g0.current_turn + 1) % 4 = 0 then g0.current_year + 1 else g0.current_year) =
                2024 + (g0.current_turn + 1) / 4 := by
            by_cases hm : (g0.current_turn + 1) % 4 = 0 <;> simp [hm] <;> omega
          have hres := ih ⟨apply_effects g0.stats opt.effects, _, g0.current_turn + 1⟩ g hinv1 hrun
          refine ⟨?_, hres.2⟩
          have ht : g.current_turn = (g0.current_turn + 1) + rest.length := hres.1
          rw [List.length_cons]
          omega

/-- Claim C3: a successful decision call advances `current_turn` by
exactly 1 and `current_year` by 1 exactly when the incremented turn is
divisible by 4; hence from the fresh start (`current_turn = 0`,
`current_year = 2024`) any `n` successful calls reach `current_turn = n`
and `current_year = 2024 + n / 4`. -/
theorem c3_turn_year :
    (∀ (ev : Event) (g : GameState) (c : Int) (g1 : GameState),
      make_decision ev g c = (none, g1) →
      g1.current_turn = g.current_turn + 1 ∧
      g1.current_year =
        (if (g.current_turn + 1) % 4 = 0 then g.current_year + 1 else g.current_year)) ∧
    (∀ (l : List (Event × Int)) (g : GameState),
      runDecisions freshStart l = some g →
      g.current_turn = l.length ∧ g.current_year = 2024 + l.length / 4) := by
  constructor
  · intro ev g c g1 hmk
    unfold make_decision at hmk
    cases hp : pyGet ev.options c with
    | none =>
        rw [hp] at hmk
        exact absurd hmk (by simp)
    | some opt =>
        rw [hp] at hmk
        rw [Prod.mk.injEq] at hmk
        rw [← hmk.2]
        exact ⟨rfl, rfl⟩
  · intro l g hrun
    have h := runDecisions_inv l freshStart g (by decide) hrun
    have h1 : g.current_turn = 0 + l.length := h.1
    have h2 : g.current_year = 2024 + g.current_turn / 4 := h.2
    refine ⟨by omega, ?_⟩
    rw [h2, h1]
    omega

/-- Claim C3, witness: eight successful decisions from the fresh start
land on turn 8 in year 2026. -/
theorem c3_witness :
    runDecisions freshStart c3List = some c3Final ∧
    c3Final.current_turn = c3List.length ∧
    c3Final.current_year = 2024 + c3List.length / 4 := by
  have h : runDecisions freshStart c3List = some c3Final := by decide
  exact ⟨h, c3_turn_year.2 c3List c3Final h⟩

/-- Claim C5, counterexample: on a four-option event the index -1 lies
outside the option range from 0 to 3, yet the decision call does not
fail — so failure is not equivalent to the index being outside that
range. -/
theorem c5_counterexample :
    ¬(0 ≤ (-1 : Int) ∧ (-1 : Int) < (testEvent.options.length : Int)) ∧
    testEvent.options.length = 4 ∧
    (make_decision testEvent freshStart (-1)).1 = none := by
  decide

/-- Claim C5, amended: the decision call fails with `InvalidOptionIndex`
exactly when the index lies outside the Python index range from
`-options.length` to `options.length - 1`; on a failure the game state
is completely unchanged (the lookup raises before any mutation), and on
a success the chosen option's effects are applied in full and the turn
advances. -/
theorem c5_invalid_index (ev : Event) (g : GameState) (c : Int) :
    ((make_decision ev g c).1 = some DecisionError.invalidOptionIndex ↔
      ¬(-(ev.options.length : Int) ≤ c ∧ c < ev.options.length)) ∧
    ((make_decision ev g c).1.isSome → (make_decision ev g c).2 = g) ∧
    (∀ opt : EventOption, pyGet ev.options c = some opt →
      (make_decision ev g c).1 = none ∧
      (make_decision ev g c).2.stats = apply_effects g.stats opt.effects ∧
      (make_decision ev g c).2.current_turn = g.current_turn + 1) := by
  unfold make_decision
  cases hp : pyGet ev.options c with
  | none =>
      refine ⟨iff_of_true rfl ((pyGet_eq_none_iff ev.options c).mp hp), fun _ => rfl, ?_⟩
      intro opt hopt
      exact Option.noConfusion hopt
  | some opt0 =>
      have hR : -(ev.options.length : Int) ≤ c ∧ c < ev.options.length := by
        by_contra hn
        rw [(pyGet_eq_none_iff ev.options c).mpr hn] at hp
        exact Option.noConfusion hp
      refine ⟨iff_of_false (by simp) (not_not_intro hR), ?_, ?_⟩
      · intro hs
        exact absurd hs (by simp)
      · intro opt hopt
        injection hopt with ho
        subst ho
        exact ⟨rfl, rfl, rfl⟩

/-- Claim C5, witness: index 99 on a four-option event fails with the
invalid-index error and leaves the state unchanged. -/
theorem c5_witness :
    (make_decision testEvent freshStart 99).1 = some DecisionError.invalidOptionIndex ∧
    (make_decision testEvent freshStart 99).2 = freshStart :=
  ⟨(c5_invalid_index testEvent freshStart 99).1.mpr (by decide),
   (c5_invalid_index testEvent freshStart 99).2.1 (by decide)⟩

/-- Claim C10: a negative index between `-n` and `-1` on an event with
`n >= 1` options never fails: the call behaves exactly like the valid
from-the-front index `n + c`, applying that option's effects and
advancing the turn the same way. -/
theorem c10_negative_index (ev : Event) (g : GameState) (c : Int)
    (h1 : 1 ≤ ev.options.length) (h2 : -(ev.options.length : Int) ≤ c) (h3 : c ≤ -1) :
    make_decision ev g c = make_decision ev g (c + ev.options.length) ∧
    (make_decision ev g c).1 = none := by
  have heq : make_decision ev g c = make_decision ev g (c + ev.options.length) := by
    unfold make_decision
    rw [pyGet_neg ev.options c h2 h3]
  refine ⟨heq, ?_⟩
  rw [heq]
  cases hp : pyGet ev.options (c + ev.options.length) with
  | none =>
      exfalso
      have hn := (pyGet_eq_none_iff ev.options (c + ev.options.length)).mp hp
      omega
  | some opt =>
      unfold make_decision
      rw [hp]

/-- Claim C10, witness: index -1 on the four-option test event succeeds
and equals the decision at index 3. -/
theorem c10_witness :
    make_decision testEvent freshStart (-1) = make_decision testEvent freshStart 3 ∧
    (make_decision testEvent freshStart (-1)).1 = none := by
  have h := c10_negative_index testEvent freshStart (-1) (by decide) (by decide) (by decide)
  rw [show (-1 + (testEvent.options.length : Int)) = 3 by decide] at h
  exact h

/-- Claim C6, counterexample: on two stored records that tie on both sort
keys, the query admits the result that ranks the later-inserted record
first, which differs from the insertion-order tie-break the claim
asserts — the ORDER BY clause fixes no order among tied rows. -/
theorem c6_counterexample :
    IsLeaderboardResult [rowA, rowB] 2 [projectRow rowB, projectRow rowA] ∧
    [projectRow rowB, projectRow rowA] ≠ specTopN [rowA, rowB] 2 := by
  constructor
  · exact ⟨[rowB, rowA], by decide, by decide, rfl⟩
  · decide

/-- Claim C6, amended: every admissible leaderboard result is sorted by
`years_survived` descending with ties broken by `turns_survived`
descending, holds `min n (number of stored records)` rows — so exactly
`n` when at least `n` are stored — and draws every row from the store;
the order among records tied on both keys is not specified. -/
theorem c6_top_n (db : List HighScoreRow) (n : Nat) (res : List LeaderRow)
    (h : IsLeaderboardResult db n res) :
    List.Sorted leaderOrder res ∧ res.length = min n db.length ∧
      ∀ r ∈ res, r ∈ List.map projectRow db := by
  obtain ⟨p, hperm, hsort, hres⟩ := h
  subst hres
  refine ⟨?_, ?_, ?_⟩
  · have h1 : List.Pairwise scoreOrder (List.take n p) :=
      List.Pairwise.sublist (List.take_sublist n p) hsort
    rw [List.Sorted, List.pairwise_map]
    exact h1.imp (fun hab => hab)
  · rw [List.length_map, List.length_take, hperm.length_eq]
  · intro r hr
    rw [List.mem_map] at hr ⊢
    obtain ⟨x, hx, rfl⟩ := hr
    exact ⟨x, hperm.mem_iff.mpr (List.mem_of_mem_take hx), rfl⟩

/-- Claim C6, witness: three of five stored records, sorted on the two
keys. -/
theorem c6_witness :
    List.Sorted leaderOrder topThree ∧ topThree.length = min 3 rowsFive.length := by
  have h : IsLeaderboardResult rowsFive 3 topThree :=
    ⟨rowsFive, List.Perm.refl rowsFive, by decide, rfl⟩
  exact ⟨(c6_top_n rowsFive 3 topThree h).1, (c6_top_n rowsFive 3 topThree h).2.1⟩

end NationCraft
